import Mathlib

/-!
Verification development for the `now scale` command
(src/providers/sh/commands/scale.js).

The command parses a positional argument list
`[subcommand, deploymentId, targets..., min?, max?]` into a per-target
scale specification, applies it against a remote API, and optionally
polls for convergence.  The orchestration in `main` is embedded
directly from the source; the helper modules it imports
(`get-dcs-from-args`, `get-min-from-args`, `get-max-from-args`,
`patch-deployment-scale`, `wait-verify-deployment-scale`) are not
part of the source tree and are modelled from the specification.
-/

namespace NowScale

/-- A scale bound: a non-negative integer or the sentinel `auto`. -/
inductive Bound where
  | auto : Bound
  | num (n : Nat) : Bound
deriving DecidableEq, Repr

/-- A `(min, max)` bound pair. -/
structure ScaleRange where
  min : Bound
  max : Bound
deriving DecidableEq, Repr

/-- A scale specification: mapping from target identifier to bound pair,
represented as an association list with unique keys. -/
abbrev ScaleSpec := List (String × ScaleRange)

/-- Modelled from the spec: the set of recognized region/datacenter codes
(the concrete universe of valid `Target` identifiers other than `all`);
the source module `get-dcs-from-args` that owns the authoritative list is
not in the source tree. -/
def validDCs : List String := ["sfo", "bru", "sfo1", "bru1"]

/-- A token that can stand in a target position: `all` or a recognized
region/dc code. -/
def isDCToken (t : String) : Bool := t == "all" || validDCs.contains t

/-- Modelled from the spec: the target tokens are the positional arguments
after the subcommand and deployment identifier; the first such position is
always a target, and following tokens are targets while they look like
region/dc identifiers (the remaining tokens are the `min`/`max` positions).
The source module `get-dcs-from-args` is not in the source tree. -/
def dcTokens (args : List String) : List String :=
  match args.drop 2 with
  | [] => []
  | t :: rest => t :: rest.takeWhile isDCToken

/-- The tokens in bound (`min`/`max`) positions: what remains of the
positional arguments after the target tokens. -/
def boundTokens (args : List String) : List String :=
  (args.drop 2).drop (dcTokens args).length

/-- Failures of the target resolver. -/
inductive DCErr where
  | invalidAllForScale : DCErr
  | invalidRegionOrDCForScale (tok : String) : DCErr
deriving DecidableEq, Repr

/-- Remove duplicates from a list, keeping the first occurrence of each
element in order; `seen` accumulates the elements already kept. -/
def dedupFirstAux (seen : List String) : List String → List String
  | [] => []
  | t :: rest =>
    if seen.contains t then dedupFirstAux seen rest
    else t :: dedupFirstAux (t :: seen) rest

/-- Remove duplicates from a list, keeping the first occurrence of each
element in order. -/
def dedupFirst (l : List String) : List String := dedupFirstAux [] l

/-- Modelled from the spec: the Target Resolver.  Parses the raw argument
list into an ordered, deduplicated list of targets; fails with
`InvalidAllForScale` when `all` co-occurs with any other target token and
with `InvalidRegionOrDCForScale` (carrying the offending token) when a
target token is not a recognized region/dc code.  The source module
`get-dcs-from-args` is not in the source tree. -/
def getDCsFromArgs (args : List String) : Except DCErr (List String) :=
  if (dcTokens args).contains "all" then
    if (dcTokens args).length > 1 then .error .invalidAllForScale
    else .ok ["all"]
  else
    match (dcTokens args).find? (fun t => !(validDCs.contains t)) with
    | some t => .error (.invalidRegionOrDCForScale t)
    | none => .ok (dedupFirst (dcTokens args))

/-- Failure of the min parser. -/
inductive MinErr where
  | invalidMinForScale (v : String) : MinErr
deriving DecidableEq, Repr

/-- Failures of the max parser (it re-resolves `min` internally, so it can
also surface a min failure, matching the check order in `main`). -/
inductive MaxErr where
  | invalidMinForScale (v : String) : MaxErr
  | invalidArgsForMinMaxScale (mn : String) : MaxErr
  | invalidMaxForScale (v : String) : MaxErr
deriving DecidableEq, Repr

/-- Parse a string of decimal digits as a non-negative integer. -/
def parseNonNegInt (s : String) : Option Nat :=
  if s.data.isEmpty then none
  else if s.data.all Char.isDigit then
    some (s.data.foldl (fun n c => n * 10 + (c.toNat - 48)) 0)
  else none

/-- Modelled from the spec: the min parser.  `min` is the first bound
position; absent it defaults to `0`; present it must be a non-negative
integer or `auto`, otherwise `InvalidMinForScale` carrying the raw value.
The source module `get-min-from-args` is not in the source tree. -/
def getMinFromArgs (args : List String) : Except MinErr Bound :=
  match boundTokens args with
  | [] => .ok (.num 0)
  | v :: _ =>
    if v == "auto" then .ok .auto
    else
      match parseNonNegInt v with
      | some n => .ok (.num n)
      | none => .error (.invalidMinForScale v)

/-- Modelled from the spec: the max parser.  `max` is the second bound
position; absent it defaults to `1` unless the resolved `min` is `auto`,
in which case the absence is `InvalidArgsForMinMaxScale`; present it must
be a positive integer or `auto`, otherwise `InvalidMaxForScale`.  A min
parse failure propagates.  The source module `get-max-from-args` is not in
the source tree. -/
def getMaxFromArgs (args : List String) : Except MaxErr Bound :=
  match getMinFromArgs args with
  | .error (.invalidMinForScale v) => .error (.invalidMinForScale v)
  | .ok mn =>
    match boundTokens args with
    | [] => .ok (.num 1)
    | [_] =>
      match mn with
      | .auto => .error (.invalidArgsForMinMaxScale "auto")
      | _ => .ok (.num 1)
    | _ :: v :: _ =>
      if v == "auto" then .ok .auto
      else
        match parseNonNegInt v with
        | some n => if n > 0 then .ok (.num n) else .error (.invalidMaxForScale v)
        | none => .error (.invalidMaxForScale v)

example : getDCsFromArgs ["scale", "u", "sfo"] = .ok ["sfo"] := rfl
example : getDCsFromArgs ["scale", "u", "all", "sfo"] = .error .invalidAllForScale := rfl
example : getDCsFromArgs ["scale", "u", "xyz"] = .error (.invalidRegionOrDCForScale "xyz") := rfl
example : getMinFromArgs ["scale", "u", "sfo", "3", "1"] = .ok (.num 3) := rfl
example : getMaxFromArgs ["scale", "u", "sfo", "3", "1"] = .ok (.num 1) := rfl
example : getMinFromArgs ["scale", "u", "sfo"] = .ok (.num 0) := rfl
example : getMaxFromArgs ["scale", "u", "sfo"] = .ok (.num 1) := rfl
example : getMaxFromArgs ["scale", "u", "sfo", "auto"] = .error (.invalidArgsForMinMaxScale "auto") := rfl
example : getMaxFromArgs ["scale", "u", "sfo", "auto", "auto"] = .ok .auto := rfl
example : getMinFromArgs ["scale", "u", "sfo", "xyz"] = .error (.invalidMinForScale "xyz") := rfl

/-- A deployment record as read from the remote API (scale.js only reads
`uid`, `url`, `type`, `state` and `scale`). -/
structure Deployment where
  uid : String
  url : String
  type : String
  state : String
  scale : ScaleSpec
deriving DecidableEq, Repr

/-- Result of the deployment fetch (`get-deployment-by-id-or-host`
collaborator): a typed permission/not-found error or the record. -/
inductive FetchResult where
  | permissionDenied (id ctx : String) : FetchResult
  | notFound : FetchResult
  | found (d : Deployment) : FetchResult
deriving DecidableEq, Repr

/-- Response of the scale-patch call (`patch-deployment-scale`
collaborator): acceptance or one of the typed remote rejections
distinguished in `main` (scale.js lines 171-188). -/
inductive PatchResult where
  | forbiddenScaleMinInstances (max : Nat) : PatchResult
  | forbiddenScaleMaxInstances (max : Nat) : PatchResult
  | invalidScaleMinMaxRelation : PatchResult
  | notSupportedMinScaleSlots : PatchResult
  | accepted : PatchResult
deriving DecidableEq, Repr

/-- A reported per-target scale snapshot: for each target the `(min, max)`
values the remote system currently reports. -/
abbrev Snapshot := List (String × Nat × Nat)

/-- Outcome of the convergence poller: convergence, or a timeout carrying
the configured timeout duration (milliseconds). -/
inductive VerifyResult where
  | converged : VerifyResult
  | timeout (t : Nat) : VerifyResult
deriving DecidableEq, Repr

/-- The reported value for one bound matches the requested bound: exact
match for concrete integers, anything for `auto`. -/
def boundMatched : Bound → Nat → Bool
  | .auto, _ => true
  | .num n, r => r == n

/-- The reported `(min, max)` pair for the target named `dc`, if any. -/
def lookupDC (snap : Snapshot) (dc : String) : Option (Nat × Nat) :=
  (snap.find? (fun p => p.1 == dc)).map Prod.snd

/-- One comparison of a reported snapshot against a requested spec:
converged when every requested target is present in the snapshot and both
its bounds are matched. -/
def convergedAt (spec : ScaleSpec) (snap : Snapshot) : Bool :=
  spec.all fun p =>
    match lookupDC snap p.1 with
    | some r => boundMatched p.2.min r.1 && boundMatched p.2.max r.2
    | none => false

/-- Modelled from the spec: the Convergence Poller
(`wait-verify-deployment-scale` is not in the source tree).  It
repeatedly re-fetches the deployment's scale snapshot (`snaps k` is the
snapshot the k-th fetch returns) and compares it against the requested
spec, stopping at the first convergence; when the deadline elapses
(modelled as the fetch budget `fuel` running out) it returns
`VerifyScaleTimeout` carrying the configured timeout duration. -/
def waitVerifyDeploymentScale (fuel : Nat) (snaps : Nat → Snapshot)
    (spec : ScaleSpec) (timeout : Nat) : VerifyResult :=
  match fuel with
  | 0 => .timeout timeout
  | f + 1 =>
    if convergedAt spec (snaps 0) then .converged
    else waitVerifyDeploymentScale f (fun i => snaps (i + 1)) spec timeout

/-- Insert-or-overwrite one key of an association list, keeping the
position of an existing key (the behaviour of the JS object spread
`{...result, [dc]: {min, max}}`). -/
def upsert (l : ScaleSpec) (k : String) (v : ScaleRange) : ScaleSpec :=
  if l.any (fun p => p.1 == k) then
    l.map (fun p => if p.1 == k then (k, v) else p)
  else l ++ [(k, v)]

/-- The Scale Spec Builder of scale.js line 165:
`dcs.reduce((result, dc) => ({...result, [dc]: { min, max }}), {})`. -/
def scaleArgs (dcs : List String) (mn mx : Bound) : ScaleSpec :=
  dcs.foldl (fun result dc => upsert result dc ⟨mn, mx⟩) []

/-- Environment of one invocation: the responses of the remote
collaborators (deployment fetch, scale patch, re-fetch, and the snapshot
sequence and budget driving the poller). -/
structure Env where
  fetch : FetchResult
  patch : PatchResult
  refetched : Deployment
  snaps : Nat → Snapshot
  fuel : Nat
  timeout : Nat

/-- Network calls observable during one invocation, in order. -/
inductive NetEvent where
  | fetch : NetEvent
  | patch (spec : ScaleSpec) : NetEvent
  | refetch : NetEvent
  | verify : NetEvent
deriving DecidableEq, Repr

/-- The discriminated outcome of one invocation, mirroring the distinct
return paths of `main` in scale.js. -/
inductive ScaleOutcome where
  | deprecatedLs : ScaleOutcome
  | usageError : ScaleOutcome
  | errInvalidAllForScale : ScaleOutcome
  | errInvalidRegionOrDC (tok : String) : ScaleOutcome
  | errInvalidMin (v : String) : ScaleOutcome
  | errInvalidArgsForMinMax (mn : String) : ScaleOutcome
  | errInvalidMax (v : String) : ScaleOutcome
  | errPermissionDenied (id ctx : String) : ScaleOutcome
  | errNotFound : ScaleOutcome
  | errStaticDeployment : ScaleOutcome
  | errErrorState : ScaleOutcome
  | errForbiddenMin (m : Nat) : ScaleOutcome
  | errForbiddenMax (m : Nat) : ScaleOutcome
  | errMinMaxRelation : ScaleOutcome
  | errNotSupportedMinScaleSlots : ScaleOutcome
  | errVerifyTimeout (t : Nat) : ScaleOutcome
  | success : ScaleOutcome
deriving DecidableEq, Repr

/-- The process exit code `main` returns for each outcome. -/
def exitCode : ScaleOutcome → Nat
  | .success => 0
  | _ => 1

/-- The apply-and-verify tail of `main` (scale.js lines 168-213): the
single scale-patch call with its typed rejections, then — unless
`--no-verify` — the re-fetch and the convergence poller for NPM and
DOCKER deployments. -/
def applyAndVerify (spec : ScaleSpec) (noVerify : Bool) (env : Env) :
    ScaleOutcome × List NetEvent :=
  match env.patch with
  | .forbiddenScaleMinInstances m => (.errForbiddenMin m, [.fetch, .patch spec])
  | .forbiddenScaleMaxInstances m => (.errForbiddenMax m, [.fetch, .patch spec])
  | .invalidScaleMinMaxRelation => (.errMinMaxRelation, [.fetch, .patch spec])
  | .notSupportedMinScaleSlots => (.errNotSupportedMinScaleSlots, [.fetch, .patch spec])
  | .accepted =>
    if noVerify then (.success, [.fetch, .patch spec])
    else
      if env.refetched.type = "NPM" ∨ env.refetched.type = "DOCKER" then
        match waitVerifyDeploymentScale env.fuel env.snaps env.refetched.scale env.timeout with
        | .timeout t => (.errVerifyTimeout t, [.fetch, .patch spec, .refetch, .verify])
        | .converged => (.success, [.fetch, .patch spec, .refetch, .verify])
      else (.success, [.fetch, .patch spec, .refetch])

/-- The body of `main` from scale.js lines 91-214 (everything after flag
tokenizing and context setup, which the spec places out of scope):
the `ls` deprecation check, the argument-count check, target and bound
parsing, the deployment fetch with its permission/not-found/STATIC/ERROR
rejections, then the apply-and-verify tail.  Returns the outcome and the
list of network calls made. -/
def mainScale (args : List String) (noVerify : Bool) (env : Env) :
    ScaleOutcome × List NetEvent :=
  if args.get? 1 = some "ls" then (.deprecatedLs, [])
  else if args.length < 3 ∨ args.length > 5 then (.usageError, [])
  else
    match getDCsFromArgs args with
    | .error .invalidAllForScale => (.errInvalidAllForScale, [])
    | .error (.invalidRegionOrDCForScale t) => (.errInvalidRegionOrDC t, [])
    | .ok dcs =>
      match getMinFromArgs args with
      | .error (.invalidMinForScale v) => (.errInvalidMin v, [])
      | .ok mn =>
        match getMaxFromArgs args with
        | .error (.invalidMinForScale v) => (.errInvalidMin v, [])
        | .error (.invalidArgsForMinMaxScale m) => (.errInvalidArgsForMinMax m, [])
        | .error (.invalidMaxForScale v) => (.errInvalidMax v, [])
        | .ok mx =>
          match env.fetch with
          | .permissionDenied id c => (.errPermissionDenied id c, [.fetch])
          | .notFound => (.errNotFound, [.fetch])
          | .found d =>
            if d.type = "STATIC" then (.errStaticDeployment, [.fetch])
            else if d.state = "ERROR" then (.errErrorState, [.fetch])
            else applyAndVerify (scaleArgs dcs mn mx) noVerify env

/-- A ready NPM deployment whose recorded scale spec is `sfo ↦ (0, 1)`. -/
def depNPM : Deployment :=
  ⟨"uid1", "my-dep.now.sh", "NPM", "READY", [("sfo", ⟨.num 0, .num 1⟩)]⟩

/-- A static deployment (not scalable). -/
def depStatic : Deployment :=
  ⟨"uid2", "static-dep.now.sh", "STATIC", "READY", []⟩

/-- A benign environment: the fetch finds `depNPM`, the patch is accepted,
and the first polled snapshot already matches `depNPM`'s recorded spec. -/
def envA : Env :=
  ⟨.found depNPM, .accepted, depNPM, fun _ => [("sfo", 0, 1)], 3, 300000⟩

/-- Environment whose fetch finds a static deployment. -/
def envStatic : Env :=
  ⟨.found depStatic, .accepted, depStatic, fun _ => [], 3, 300000⟩

example : mainScale ["scale", "u", "sfo"] false envA = (.success, [.fetch, .patch [("sfo", ⟨.num 0, .num 1⟩)], .refetch, .verify]) := rfl
example : mainScale ["scale", "u", "all", "auto", "auto"] false envStatic = (.errStaticDeployment, [.fetch]) := rfl
example : mainScale ["scale", "ls"] false envA = (.deprecatedLs, []) := rfl
example : mainScale ["scale", "u"] false envA = (.usageError, []) := rfl
example : mainScale ["scale", "u", "all", "sfo"] false envA = (.errInvalidAllForScale, []) := rfl

/-- Propositional reading of `boundMatched`: the reported value for one
bound satisfies the requested bound (exact equality for a concrete
integer, trivially true for `auto`). -/
def BoundSatisfied : Bound → Nat → Prop
  | .auto, _ => True
  | .num n, r => r = n

lemma boundMatched_iff (b : Bound) (r : Nat) :
    boundMatched b r = true ↔ BoundSatisfied b r := by
  cases b <;> simp [boundMatched, BoundSatisfied]

lemma convergedAt_iff (spec : ScaleSpec) (snap : Snapshot) :
    convergedAt spec snap = true ↔
      ∀ p ∈ spec, ∃ r, lookupDC snap p.1 = some r ∧
        BoundSatisfied p.2.min r.1 ∧ BoundSatisfied p.2.max r.2 := by
  unfold convergedAt
  rw [List.all_eq_true]
  refine forall_congr' fun p => forall_congr' fun _ => ?_
  cases h : lookupDC snap p.1 with
  | none => simp [h]
  | some r => simp [h, Bool.and_eq_true, boundMatched_iff]

lemma waitVerify_converged_iff (fuel : Nat) :
    ∀ (snaps : Nat → Snapshot) (spec : ScaleSpec) (t : Nat),
      waitVerifyDeploymentScale fuel snaps spec t = .converged ↔
        ∃ k, k < fuel ∧ convergedAt spec (snaps k) = true := by
  induction fuel with
  | zero =>
    intro snaps spec t
    simp [waitVerifyDeploymentScale]
  | succ f ih =>
    intro snaps spec t
    unfold waitVerifyDeploymentScale
    by_cases h : convergedAt spec (snaps 0) = true
    · rw [if_pos h]
      simp only [true_iff]
      exact ⟨0, Nat.succ_pos f, h⟩
    · rw [if_neg h, ih]
      constructor
      · rintro ⟨k, hk, hc⟩
        exact ⟨k + 1, Nat.succ_lt_succ hk, hc⟩
      · rintro ⟨k, hk, hc⟩
        cases k with
        | zero => exact absurd hc h
        | succ k' => exact ⟨k', Nat.lt_of_succ_lt_succ hk, hc⟩

lemma waitVerify_timeout_of_never (fuel : Nat) :
    ∀ (snaps : Nat → Snapshot) (spec : ScaleSpec) (t : Nat),
      (∀ k, k < fuel → convergedAt spec (snaps k) = false) →
      waitVerifyDeploymentScale fuel snaps spec t = .timeout t := by
  induction fuel with
  | zero => intro snaps spec t _; rfl
  | succ f ih =>
    intro snaps spec t h
    unfold waitVerifyDeploymentScale
    rw [if_neg (by simp [h 0 (Nat.succ_pos f)])]
    exact ih _ spec t fun k hk => h (k + 1) (Nat.succ_lt_succ hk)

lemma upsert_of_not_key (l : ScaleSpec) (k : String) (v : ScaleRange)
    (h : ∀ p ∈ l, p.1 ≠ k) : upsert l k v = l ++ [(k, v)] := by
  have hno : ¬(l.any (fun p => p.1 == k) = true) := by
    rw [List.any_eq_true]
    rintro ⟨p, hp, he⟩
    exact h p hp (by simpa using he)
  unfold upsert
  rw [if_neg hno]

lemma scaleArgs_aux (mn mx : Bound) :
    ∀ (dcs : List String) (acc : ScaleSpec), dcs.Nodup →
      (∀ d ∈ dcs, ∀ p ∈ acc, p.1 ≠ d) →
      dcs.foldl (fun r dc => upsert r dc ⟨mn, mx⟩) acc =
        acc ++ dcs.map (fun d => (d, ⟨mn, mx⟩)) := by
  intro dcs
  induction dcs with
  | nil => intro acc _ _; simp
  | cons d rest ih =>
    intro acc hnd hdisj
    have hkey : ∀ p ∈ acc, p.1 ≠ d :=
      fun p hp => hdisj d (List.mem_cons_self d rest) p hp
    have hdisj' : ∀ d' ∈ rest, ∀ p ∈ acc ++ [(d, (⟨mn, mx⟩ : ScaleRange))], p.1 ≠ d' := by
      intro d' hd' p hp
      rcases List.mem_append.mp hp with h1 | h2
      · exact hdisj d' (List.mem_cons_of_mem d hd') p h1
      · have hpd : p = (d, (⟨mn, mx⟩ : ScaleRange)) := by simpa using h2
        subst hpd
        intro hc
        have hc' : d = d' := hc
        apply (List.nodup_cons.mp hnd).1
        rw [hc']
        exact hd'
    have hih := ih (acc ++ [(d, (⟨mn, mx⟩ : ScaleRange))]) (List.Nodup.of_cons hnd) hdisj'
    rw [List.foldl_cons, upsert_of_not_key acc d ⟨mn, mx⟩ hkey, hih]
    simp

lemma scaleArgs_eq_map (dcs : List String) (mn mx : Bound) (h : dcs.Nodup) :
    scaleArgs dcs mn mx = dcs.map (fun d => (d, ⟨mn, mx⟩)) := by
  unfold scaleArgs
  rw [scaleArgs_aux mn mx dcs [] h (by simp)]
  simp

/-- Detect the scale-patch network call. -/
def isPatchEv : NetEvent → Bool
  | .patch _ => true
  | _ => false

lemma mainScale_reach_apply (args : List String) (nv : Bool) (env : Env)
    (dcs : List String) (mn mx : Bound) (d : Deployment)
    (h1 : ¬args.get? 1 = some "ls")
    (h2 : ¬(args.length < 3 ∨ args.length > 5))
    (hdcs : getDCsFromArgs args = .ok dcs)
    (hmin : getMinFromArgs args = .ok mn)
    (hmax : getMaxFromArgs args = .ok mx)
    (hf : env.fetch = .found d)
    (hst : ¬d.type = "STATIC") (her : ¬d.state = "ERROR") :
    mainScale args nv env = applyAndVerify (scaleArgs dcs mn mx) nv env := by
  unfold mainScale
  rw [if_neg h1, if_neg h2, hdcs, hmin, hmax, hf]
  simp [hst, her]

lemma mainScale_parse_error (args : List String) (nv : Bool) (env : Env)
    (h : (∃ e, getDCsFromArgs args = .error e) ∨
         (∃ e, getMinFromArgs args = .error e) ∨
         (∃ e, getMaxFromArgs args = .error e)) :
    exitCode (mainScale args nv env).1 = 1 ∧ (mainScale args nv env).2 = [] := by
  unfold mainScale
  repeat' split
  all_goals simp_all [exitCode]

/-- An environment whose scale patch is rejected with
`InvalidScaleMinMaxRelation` by the remote API. -/
def envRel : Env :=
  ⟨.found depNPM, .invalidScaleMinMaxRelation, depNPM, fun _ => [("sfo", 0, 1)], 3, 300000⟩

/-- An environment whose polled snapshots never match anything. -/
def envT : Env :=
  ⟨.found depNPM, .accepted, depNPM, fun _ => [], 3, 300000⟩

/-- C1: the Convergence Poller compares each re-fetched scale snapshot
against the requested ScaleSpec and reports converged exactly when every
requested target's reported state satisfies the requested bound (exact
match for concrete integers, any non-negative value for `auto`); at the
level of `mainScale`, an invocation that reaches verification (with the
re-fetched deployment's recorded scale being the spec submitted in the
apply call, which the remote API echoes) succeeds exactly when some polled
snapshot satisfies the submitted spec per target. -/
theorem c1_convergence_poller_semantics :
    (∀ (spec : ScaleSpec) (snap : Snapshot),
        convergedAt spec snap = true ↔
          ∀ p ∈ spec, ∃ r, lookupDC snap p.1 = some r ∧
            BoundSatisfied p.2.min r.1 ∧ BoundSatisfied p.2.max r.2) ∧
    (∀ (fuel : Nat) (snaps : Nat → Snapshot) (spec : ScaleSpec) (t : Nat),
        waitVerifyDeploymentScale fuel snaps spec t = .converged ↔
          ∃ k, k < fuel ∧ convergedAt spec (snaps k) = true) ∧
    (∀ (args : List String) (env : Env) (dcs : List String) (mn mx : Bound)
        (d : Deployment),
        ¬args.get? 1 = some "ls" → ¬(args.length < 3 ∨ args.length > 5) →
        getDCsFromArgs args = .ok dcs →
        getMinFromArgs args = .ok mn → getMaxFromArgs args = .ok mx →
        env.fetch = .found d → ¬d.type = "STATIC" → ¬d.state = "ERROR" →
        env.patch = .accepted →
        (env.refetched.type = "NPM" ∨ env.refetched.type = "DOCKER") →
        env.refetched.scale = scaleArgs dcs mn mx →
        ((mainScale args false env).1 = .success ↔
          ∃ k, k < env.fuel ∧
            convergedAt (scaleArgs dcs mn mx) (env.snaps k) = true)) := by
  refine ⟨convergedAt_iff, fun fuel => waitVerify_converged_iff fuel, ?_⟩
  intro args env dcs mn mx d h1 h2 hdcs hmin hmax hf hst her hp htype hscale
  rw [mainScale_reach_apply args false env dcs mn mx d h1 h2 hdcs hmin hmax hf hst her]
  unfold applyAndVerify
  rw [hp]
  simp only [Bool.false_eq_true, if_false]
  rw [if_pos htype, hscale]
  have hiff := waitVerify_converged_iff env.fuel env.snaps (scaleArgs dcs mn mx) env.timeout
  cases hv : waitVerifyDeploymentScale env.fuel env.snaps (scaleArgs dcs mn mx) env.timeout with
  | converged =>
    simp only [true_iff]
    exact hiff.mp hv
  | timeout t =>
    constructor
    · intro hcontra
      exact absurd hcontra (by simp)
    · intro hex
      have hc := hiff.mpr hex
      rw [hv] at hc
      exact absurd hc (by simp)

/-- C1 witness: a concrete invocation reaching verification. -/
theorem c1_convergence_poller_semantics_witness :
    ((mainScale ["scale", "u", "sfo"] false envA).1 = .success ↔
      ∃ k, k < envA.fuel ∧
        convergedAt (scaleArgs ["sfo"] (Bound.num 0) (Bound.num 1)) (envA.snaps k) = true) :=
  c1_convergence_poller_semantics.2.2 ["scale", "u", "sfo"] envA ["sfo"]
    (Bound.num 0) (Bound.num 1) depNPM (by decide) (by decide) rfl rfl rfl rfl
    (by decide) (by decide) rfl (Or.inl rfl) rfl

/-- C2 counterexample: for target list `["all"]`, min `auto`, max `auto`
and a STATIC deployment, the request is indeed rejected, but only after
the deployment fetch — a network call — has been made, refuting
"rejected before any network call is made". -/
theorem c2_counterexample :
    (mainScale ["scale", "dep", "all", "auto", "auto"] false envStatic).1 = .errStaticDeployment ∧
    (mainScale ["scale", "dep", "all", "auto", "auto"] false envStatic).2 = [NetEvent.fetch] ∧
    ([NetEvent.fetch] : List NetEvent) ≠ [] :=
  ⟨rfl, rfl, by simp⟩

/-- C2 (amended): when the fetched deployment is STATIC the invocation
never issues the scale-patch call; the deployment fetch is the only
network call it can make, and whenever the fetch actually happened the
outcome is the STATIC rejection. -/
theorem c2_static_rejected_before_patch (args : List String) (nv : Bool)
    (env : Env) (d : Deployment)
    (hf : env.fetch = .found d) (ht : d.type = "STATIC") :
    (∀ s, NetEvent.patch s ∉ (mainScale args nv env).2) ∧
    ((mainScale args nv env).2 = [] ∨ (mainScale args nv env).2 = [NetEvent.fetch]) ∧
    ((mainScale args nv env).2 = [NetEvent.fetch] →
      (mainScale args nv env).1 = .errStaticDeployment) := by
  unfold mainScale
  repeat' split
  all_goals simp_all

/-- C2 witness: the concrete STATIC scenario, instantiated. -/
theorem c2_static_rejected_before_patch_witness :
    NetEvent.patch (scaleArgs ["all"] Bound.auto Bound.auto) ∉
      (mainScale ["scale", "dep", "all", "auto", "auto"] false envStatic).2 ∧
    (mainScale ["scale", "dep", "all", "auto", "auto"] false envStatic).1 = .errStaticDeployment :=
  ⟨(c2_static_rejected_before_patch ["scale", "dep", "all", "auto", "auto"] false
      envStatic depStatic rfl rfl).1 _,
   (c2_static_rejected_before_patch ["scale", "dep", "all", "auto", "auto"] false
      envStatic depStatic rfl rfl).2.2 rfl⟩

/-- C3: whenever target resolution or min/max parsing fails (any of the
five input-shape errors), the command returns a failure exit code having
made no network call at all. -/
theorem c3_parse_failure_no_network (args : List String) (nv : Bool) (env : Env)
    (h : (∃ e, getDCsFromArgs args = .error e) ∨
         (∃ e, getMinFromArgs args = .error e) ∨
         (∃ e, getMaxFromArgs args = .error e)) :
    exitCode (mainScale args nv env).1 = 1 ∧ (mainScale args nv env).2 = [] :=
  mainScale_parse_error args nv env h

/-- C3 witness: `all` alongside another target. -/
theorem c3_parse_failure_no_network_witness :
    exitCode (mainScale ["scale", "u", "all", "sfo"] false envA).1 = 1 ∧
    (mainScale ["scale", "u", "all", "sfo"] false envA).2 = [] :=
  c3_parse_failure_no_network ["scale", "u", "all", "sfo"] false envA
    (Or.inl ⟨DCErr.invalidAllForScale, rfl⟩)

/-- C4: with concrete min and max tokens where min exceeds max, local
parsing and spec building succeed (no local relation check) and the
invocation proceeds to the apply call, where the remote
`InvalidScaleMinMaxRelation` rejection produces the failure. -/
theorem c4_inverted_relation_rejected_remotely (args : List String) (nv : Bool)
    (env : Env) (dcs : List String) (m M : Nat) (d : Deployment)
    (h1 : ¬args.get? 1 = some "ls")
    (h2 : ¬(args.length < 3 ∨ args.length > 5))
    (hdcs : getDCsFromArgs args = .ok dcs)
    (hmin : getMinFromArgs args = .ok (.num m))
    (hmax : getMaxFromArgs args = .ok (.num M))
    (_hrel : M < m)
    (hf : env.fetch = .found d)
    (hst : ¬d.type = "STATIC") (her : ¬d.state = "ERROR")
    (hp : env.patch = .invalidScaleMinMaxRelation) :
    mainScale args nv env =
      (.errMinMaxRelation, [.fetch, .patch (scaleArgs dcs (.num m) (.num M))]) := by
  rw [mainScale_reach_apply args nv env dcs (.num m) (.num M) d h1 h2 hdcs hmin hmax hf hst her]
  unfold applyAndVerify
  rw [hp]

/-- C4 witness: `min="3", max="1"` against a remote relation rejection. -/
theorem c4_inverted_relation_rejected_remotely_witness :
    mainScale ["scale", "u", "sfo", "3", "1"] false envRel =
      (.errMinMaxRelation, [.fetch, .patch (scaleArgs ["sfo"] (.num 3) (.num 1))]) :=
  c4_inverted_relation_rejected_remotely ["scale", "u", "sfo", "3", "1"] false
    envRel ["sfo"] 3 1 depNPM (by decide) (by decide) rfl rfl rfl (by decide)
    rfl (by decide) (by decide) rfl

/-- C5: the Scale Spec Builder maps exactly the resolved targets, each to
the same `{min, max}` pair; every invocation makes at most one scale-patch
call, and any spec it submits is exactly the built one. -/
theorem c5_scale_spec_builder :
    (∀ (dcs : List String) (mn mx : Bound), dcs ≠ [] → dcs.Nodup →
        (scaleArgs dcs mn mx).map Prod.fst = dcs ∧
        ∀ p ∈ scaleArgs dcs mn mx, p.2 = ⟨mn, mx⟩) ∧
    (∀ (args : List String) (nv : Bool) (env : Env),
        (mainScale args nv env).2.countP isPatchEv ≤ 1) ∧
    (∀ (args : List String) (nv : Bool) (env : Env) (dcs : List String)
        (mn mx : Bound) (s : ScaleSpec),
        getDCsFromArgs args = .ok dcs →
        getMinFromArgs args = .ok mn → getMaxFromArgs args = .ok mx →
        NetEvent.patch s ∈ (mainScale args nv env).2 → s = scaleArgs dcs mn mx) := by
  refine ⟨?_, ?_, ?_⟩
  · intro dcs mn mx _ hnd
    rw [scaleArgs_eq_map dcs mn mx hnd]
    constructor
    · rw [List.map_map,
          show (Prod.fst ∘ fun d => (d, (⟨mn, mx⟩ : ScaleRange))) = id from rfl,
          List.map_id]
    · intro p hp
      simp only [List.mem_map] at hp
      obtain ⟨d, _, rfl⟩ := hp
      rfl
  · intro args nv env
    unfold mainScale applyAndVerify
    repeat' split
    all_goals simp [List.countP_cons, List.countP_nil, isPatchEv]
  · intro args nv env dcs mn mx s hdcs hmin hmax hmem
    unfold mainScale applyAndVerify at hmem
    repeat' split at hmem
    all_goals simp_all

/-- C5 witness: two targets with bounds `(0, 1)`, and the benign run. -/
theorem c5_scale_spec_builder_witness :
    (scaleArgs ["sfo", "bru"] (Bound.num 0) (Bound.num 1)).map Prod.fst = ["sfo", "bru"] ∧
    (mainScale ["scale", "u", "sfo"] false envA).2.countP isPatchEv ≤ 1 :=
  ⟨(c5_scale_spec_builder.1 ["sfo", "bru"] (Bound.num 0) (Bound.num 1)
      (by decide) (by decide)).1,
   c5_scale_spec_builder.2.1 ["scale", "u", "sfo"] false envA⟩

/-- C6: assuming the invocation reaches the post-apply stage, the
Convergence Poller runs exactly when the skip-verification flag is absent
and the re-fetched deployment's type is NPM or DOCKER; when the flag is
absent but the type is neither, verification is skipped and the command
still completes with success. -/
theorem c6_verification_gate (args : List String) (nv : Bool) (env : Env)
    (dcs : List String) (mn mx : Bound) (d : Deployment)
    (h1 : ¬args.get? 1 = some "ls")
    (h2 : ¬(args.length < 3 ∨ args.length > 5))
    (hdcs : getDCsFromArgs args = .ok dcs)
    (hmin : getMinFromArgs args = .ok mn)
    (hmax : getMaxFromArgs args = .ok mx)
    (hf : env.fetch = .found d)
    (hst : ¬d.type = "STATIC") (her : ¬d.state = "ERROR")
    (hp : env.patch = .accepted) :
    (NetEvent.verify ∈ (mainScale args nv env).2 ↔
      nv = false ∧ (env.refetched.type = "NPM" ∨ env.refetched.type = "DOCKER")) ∧
    (nv = false → ¬(env.refetched.type = "NPM" ∨ env.refetched.type = "DOCKER") →
      (mainScale args nv env).1 = .success) := by
  rw [mainScale_reach_apply args nv env dcs mn mx d h1 h2 hdcs hmin hmax hf hst her]
  unfold applyAndVerify
  rw [hp]
  cases nv with
  | true => simp
  | false =>
    simp only [Bool.false_eq_true, if_false]
    by_cases ht : env.refetched.type = "NPM" ∨ env.refetched.type = "DOCKER"
    · rw [if_pos ht]
      cases waitVerifyDeploymentScale env.fuel env.snaps env.refetched.scale env.timeout with
      | converged => simp [ht]
      | timeout t => simp [ht]
    · rw [if_neg ht]
      simp [ht]

/-- C6 witness: the benign NPM run. -/
theorem c6_verification_gate_witness :
    (NetEvent.verify ∈ (mainScale ["scale", "u", "sfo"] false envA).2 ↔
      false = false ∧ (envA.refetched.type = "NPM" ∨ envA.refetched.type = "DOCKER")) :=
  (c6_verification_gate ["scale", "u", "sfo"] false envA ["sfo"]
    (Bound.num 0) (Bound.num 1) depNPM (by decide) (by decide) rfl rfl rfl rfl
    (by decide) (by decide) rfl).1

/-- C7: when no polled snapshot ever satisfies the requested spec before
the poll budget runs out, the command receives `VerifyScaleTimeout`
carrying the configured timeout duration and reports it as the typed
outcome `errVerifyTimeout` with exit code 1 — a returned value, not an
uncaught fault (`mainScale` is a total function). -/
theorem c7_verify_timeout_reported (args : List String) (env : Env)
    (dcs : List String) (mn mx : Bound) (d : Deployment)
    (h1 : ¬args.get? 1 = some "ls")
    (h2 : ¬(args.length < 3 ∨ args.length > 5))
    (hdcs : getDCsFromArgs args = .ok dcs)
    (hmin : getMinFromArgs args = .ok mn)
    (hmax : getMaxFromArgs args = .ok mx)
    (hf : env.fetch = .found d)
    (hst : ¬d.type = "STATIC") (her : ¬d.state = "ERROR")
    (hp : env.patch = .accepted)
    (ht : env.refetched.type = "NPM" ∨ env.refetched.type = "DOCKER")
    (hnc : ∀ k, k < env.fuel → convergedAt env.refetched.scale (env.snaps k) = false) :
    mainScale args false env =
      (.errVerifyTimeout env.timeout,
       [.fetch, .patch (scaleArgs dcs mn mx), .refetch, .verify]) ∧
    exitCode (.errVerifyTimeout env.timeout) = 1 := by
  constructor
  · rw [mainScale_reach_apply args false env dcs mn mx d h1 h2 hdcs hmin hmax hf hst her]
    unfold applyAndVerify
    rw [hp]
    simp only [Bool.false_eq_true, if_false]
    rw [if_pos ht,
        waitVerify_timeout_of_never env.fuel env.snaps env.refetched.scale env.timeout hnc]
  · rfl

/-- C7 witness: an environment whose snapshots never match. -/
theorem c7_verify_timeout_reported_witness :
    mainScale ["scale", "u", "sfo"] false envT =
      (.errVerifyTimeout envT.timeout,
       [.fetch, .patch (scaleArgs ["sfo"] (Bound.num 0) (Bound.num 1)), .refetch, .verify]) ∧
    exitCode (.errVerifyTimeout envT.timeout) = 1 :=
  c7_verify_timeout_reported ["scale", "u", "sfo"] envT ["sfo"]
    (Bound.num 0) (Bound.num 1) depNPM (by decide) (by decide) rfl rfl rfl rfl
    (by decide) (by decide) rfl (Or.inl rfl) (fun _ _ => rfl)

/-- C8: whenever `all` appears among the target tokens together with at
least one other target token, target resolution fails with
`InvalidAllForScale`, and the command returns a failure having made no
network call. -/
theorem c8_all_with_other_targets (args : List String) (nv : Bool) (env : Env)
    (hall : "all" ∈ dcTokens args)
    (h2 : 2 ≤ (dcTokens args).length) :
    getDCsFromArgs args = .error .invalidAllForScale ∧
    exitCode (mainScale args nv env).1 = 1 ∧ (mainScale args nv env).2 = [] := by
  have hdcs : getDCsFromArgs args = .error .invalidAllForScale := by
    unfold getDCsFromArgs
    rw [if_pos (List.elem_eq_true_of_mem hall), if_pos (by omega)]
  exact ⟨hdcs, mainScale_parse_error args nv env (Or.inl ⟨_, hdcs⟩)⟩

/-- C8 witness: `sfo` followed by `all`. -/
theorem c8_all_with_other_targets_witness :
    getDCsFromArgs ["scale", "u", "sfo", "all"] = .error .invalidAllForScale ∧
    exitCode (mainScale ["scale", "u", "sfo", "all"] false envA).1 = 1 ∧
    (mainScale ["scale", "u", "sfo", "all"] false envA).2 = [] :=
  c8_all_with_other_targets ["scale", "u", "sfo", "all"] false envA
    (by decide) (by decide)

lemma dedupFirstAux_length_le : ∀ (l seen : List String),
    (dedupFirstAux seen l).length ≤ l.length := by
  intro l
  induction l with
  | nil => intro seen; simp [dedupFirstAux]
  | cons t rest ih =>
    intro seen
    unfold dedupFirstAux
    by_cases h : seen.contains t = true
    · rw [if_pos h]
      exact Nat.le_succ_of_le (ih seen)
    · rw [if_neg h]
      simpa using Nat.succ_le_succ (ih (t :: seen))

lemma dcTokens_length_le (args : List String) :
    (dcTokens args).length ≤ (args.drop 2).length := by
  unfold dcTokens
  cases args.drop 2 with
  | nil => simp
  | cons t rest =>
    simpa using Nat.succ_le_succ ((List.takeWhile_prefix isDCToken).sublist.length_le)

lemma getDCs_ok_length (args : List String) (dcs : List String)
    (h : getDCsFromArgs args = .ok dcs) : dcs.length ≤ (dcTokens args).length := by
  unfold getDCsFromArgs at h
  split at h
  · split at h
    · cases h
    · rename_i hall _
      have hdcs : dcs = ["all"] := by
        injection h with h'
        exact h'.symm
      subst hdcs
      have hne : dcTokens args ≠ [] := by
        intro hnil
        rw [hnil] at hall
        cases hall
      have := List.length_pos.mpr hne
      simpa using this
  · split at h
    · cases h
    · have hdcs : dcs = dedupFirst (dcTokens args) := by
        injection h with h'
        exact h'.symm
      subst hdcs
      exact dedupFirstAux_length_le (dcTokens args) []

/-- C9 counterexample: a two-entry argument list whose second entry is
`ls` fails with the deprecation error, not the usage error, because the
deprecation check precedes argument-count validation. -/
theorem c9_counterexample :
    (["scale", "ls"] : List String).length < 3 ∧
    mainScale ["scale", "ls"] false envA = (.deprecatedLs, []) ∧
    ScaleOutcome.deprecatedLs ≠ ScaleOutcome.usageError :=
  ⟨by decide, rfl, by decide⟩

/-- C9 (amended): for every invocation whose positional argument list has
fewer than 3 or more than 5 entries and whose deployment-identifier
position is not the literal `ls` (which takes precedence), the command
fails with the usage error having made no network call; and since at most
three tokens may follow the deployment identifier, two or more resolved
targets leave room for at most one explicit bound token, so multiple
targets can never be combined with both an explicit min and an explicit
max. -/
theorem c9_argument_count_gate :
    (∀ (args : List String) (nv : Bool) (env : Env),
        ¬args.get? 1 = some "ls" → (args.length < 3 ∨ args.length > 5) →
        mainScale args nv env = (.usageError, [])) ∧
    (∀ (args : List String) (dcs : List String),
        args.length ≤ 5 → getDCsFromArgs args = .ok dcs → 2 ≤ dcs.length →
        (boundTokens args).length ≤ 1) := by
  constructor
  · intro args nv env h1 h2
    unfold mainScale
    rw [if_neg h1, if_pos h2]
  · intro args dcs hlen hdcs hcard
    have h1 := getDCs_ok_length args dcs hdcs
    have h2 := dcTokens_length_le args
    have h3 : (args.drop 2).length = args.length - 2 := List.length_drop 2 args
    have h4 : (boundTokens args).length =
        (args.drop 2).length - (dcTokens args).length := by
      unfold boundTokens
      exact List.length_drop (dcTokens args).length (args.drop 2)
    omega

/-- C9 witness: a short list is rejected with the usage error, and two
targets with one bound token exhaust the argument budget. -/
theorem c9_argument_count_gate_witness :
    mainScale ["scale", "u"] false envA = (.usageError, []) ∧
    (boundTokens ["scale", "u", "sfo", "bru", "3"]).length ≤ 1 :=
  ⟨c9_argument_count_gate.1 ["scale", "u"] false envA (by decide) (by decide),
   c9_argument_count_gate.2 ["scale", "u", "sfo", "bru", "3"] ["sfo", "bru"]
     (by decide) rfl (by decide)⟩

/-- C10: whenever the deployment-identifier position holds the literal
`ls`, the command fails with the deprecation outcome before
argument-count validation, parsing or any network call — so a deployment
identified by the string `ls` can never be scaled through this command. -/
theorem c10_ls_deprecation (args : List String) (nv : Bool) (env : Env)
    (h : args.get? 1 = some "ls") :
    mainScale args nv env = (.deprecatedLs, []) := by
  unfold mainScale
  rw [if_pos h]

/-- C10 witness: a six-entry list (which would also fail the count check)
still hits the deprecation error first. -/
theorem c10_ls_deprecation_witness :
    mainScale ["scale", "ls", "sfo", "bru", "0", "1"] false envA = (.deprecatedLs, []) :=
  c10_ls_deprecation ["scale", "ls", "sfo", "bru", "0", "1"] false envA rfl

end NowScale
